import Mathlib

/-!
# Verification of the draw-maps polygon-drawing widget

Shallow embedding of `src/drawMaps.js`: the coordinate mapper
(`getElementOffset` / `getMousePosition`), the drawing-session state machine
(`regretPoint` / `closeMap` / `resetMaps` and the `onClick` / `onMove`
handlers), the `extend` option merger, and the exported per-element
construction loop. JS numbers are modelled as rationals, `Math.round` as
round-half-up, element/DOM geometry as explicit records, and JS exceptions
as `Except` values.
-/

namespace DrawMaps

/-- An element-relative vertex, as produced by `getMousePosition`
(integer pixel coordinates after `Math.round`). -/
structure Point where
  x : ℤ
  y : ℤ
deriving DecidableEq, Repr

/-- `Math.round`: round half up to the nearest integer. -/
def jsRound (q : ℚ) : ℤ := ⌊q + 1 / 2⌋

/-- The DOM geometry `getElementOffset` reads: the element's viewport
bounding rect top/left (`getBoundingClientRect`), the page scroll offsets
(`window.pageXOffset` / `pageYOffset`) and the root document element's
`clientTop` / `clientLeft`. -/
structure Geometry where
  rectTop : ℚ
  rectLeft : ℚ
  pageXOffset : ℚ
  pageYOffset : ℚ
  clientTop : ℚ
  clientLeft : ℚ
deriving DecidableEq

/-- The `{top, left}` record returned by `getElementOffset`. -/
structure Offset where
  top : ℚ
  left : ℚ
deriving DecidableEq

/-- `drawMaps.prototype.getElementOffset`: document-relative offset of the
element. -/
def getElementOffset (g : Geometry) : Offset :=
  { top := g.rectTop + g.pageYOffset - g.clientTop
    left := g.rectLeft + g.pageXOffset - g.clientLeft }

/-- A pointer event: page coordinates plus the standard modifier-key flags
(`event[key]` lookups on anything else yield `undefined`, which is falsy). -/
structure MouseEvent where
  pageX : ℚ
  pageY : ℚ
  metaKey : Bool
  shiftKey : Bool
  altKey : Bool
  ctrlKey : Bool
deriving DecidableEq

/-- `event[key]` for the modifier-key names used by the options; any other
property name reads as `undefined`, hence falsy. -/
def MouseEvent.getModifier (ev : MouseEvent) (key : String) : Bool :=
  if key = "metaKey" then ev.metaKey
  else if key = "shiftKey" then ev.shiftKey
  else if key = "altKey" then ev.altKey
  else if key = "ctrlKey" then ev.ctrlKey
  else false

/-- `drawMaps.prototype.getMousePosition`: cursor position relative to the
element. -/
def getMousePosition (g : Geometry) (ev : MouseEvent) : Point :=
  let offset := getElementOffset g
  { x := jsRound (ev.pageX - offset.left)
    y := jsRound (ev.pageY - offset.top) }

/-- Coordinate Mapper contract exactly as the spec words it, for comparison
with the code-derived `getMousePosition`: `{x: round(pageX - offsetLeft),
y: round(pageY - offsetTop)}` where `offsetLeft = rect.left + pageXOffset -
documentElement.clientLeft` and `offsetTop = rect.top + pageYOffset -
documentElement.clientTop`. -/
def coordinateMapperSpec (g : Geometry) (ev : MouseEvent) : Point :=
  let offsetLeft := g.rectLeft + g.pageXOffset - g.clientLeft
  let offsetTop := g.rectTop + g.pageYOffset - g.clientTop
  { x := jsRound (ev.pageX - offsetLeft)
    y := jsRound (ev.pageY - offsetTop) }

/-- Scrolling the page by `(dx, dy)` while the element keeps its document
position: the scroll offsets grow by `(dx, dy)` and the viewport bounding
rect shifts by `(-dx, -dy)`. -/
def scrollBy (g : Geometry) (dx dy : ℚ) : Geometry :=
  { g with
    pageXOffset := g.pageXOffset + dx
    pageYOffset := g.pageYOffset + dy
    rectLeft := g.rectLeft - dx
    rectTop := g.rectTop - dy }

/-- The three configurable modifier-key option names (defaults:
`regretKey = "metaKey"`, `closeKey = "shiftKey"`, `resetKey = "altKey"`). -/
structure KeyOptions where
  regretKey : String
  closeKey : String
  resetKey : String
deriving DecidableEq

/-- The modifier-key bindings from `drawMaps.prototype.defaults`. -/
def defaultKeys : KeyOptions :=
  { regretKey := "metaKey", closeKey := "shiftKey", resetKey := "altKey" }

/-- Per-widget mutable state: `this.isDrawing`, `this.coords`,
whether `this.polygon` is non-null, and the number of polygon elements
currently inside `this.svg` (the render sink's durable record). -/
structure State where
  isDrawing : Bool
  coords : List Point
  polygonAttached : Bool
  svgShapeCount : ℕ
deriving DecidableEq

/-- The state set up by the constructor: `isDrawing = false`, `coords = []`,
`polygon = null`, empty svg. -/
def initState : State :=
  { isDrawing := false, coords := [], polygonAttached := false, svgShapeCount := 0 }

/-- `drawMaps.prototype.injectPolygon`: append a fresh polygon element to the
svg and remember it in `this.polygon`. -/
def injectPolygon (s : State) : State :=
  { s with polygonAttached := true, svgShapeCount := s.svgShapeCount + 1 }

/-- The lazy-creation step at the top of `onClick`:
`if (!this.polygon) this.injectPolygon()`. -/
def ensurePolygon (s : State) : State :=
  if !s.polygonAttached then injectPolygon s else s

/-- `drawMaps.prototype.regretPoint`:
`if (this.coords.length > 0) this.coords.pop()`. -/
def regretPoint (s : State) : State :=
  if s.coords.length > 0 then { s with coords := s.coords.dropLast } else s

/-- `drawMaps.prototype.closeMap`: `isDrawing = false; polygon = null;
coords = []` (the svg keeps its shapes). -/
def closeMap (s : State) : State :=
  { s with isDrawing := false, polygonAttached := false, coords := [] }

/-- `drawMaps.prototype.resetMaps`: `isDrawing = false;
svg.innerHTML = ''; polygon = null; coords = []`. -/
def resetMaps (s : State) : State :=
  { s with isDrawing := false, svgShapeCount := 0, polygonAttached := false, coords := [] }

/-- The plain-click branch of `onClick`:
`this.coords.push([position.x, position.y]); this.isDrawing = true`. -/
def addVertex (s : State) (p : Point) : State :=
  { s with coords := s.coords ++ [p], isDrawing := true }

/-- `drawMaps.prototype.onClick`: lazily inject the polygon, then dispatch on
the modifier keys in source order (`regretKey`, `closeKey`, `resetKey`, each
branch returning), else map the position and push a vertex. -/
def onClick (keys : KeyOptions) (g : Geometry) (ev : MouseEvent) (s : State) : State :=
  let s1 := ensurePolygon s
  if ev.getModifier keys.regretKey then regretPoint s1
  else if ev.getModifier keys.closeKey then closeMap s1
  else if ev.getModifier keys.resetKey then resetMaps s1
  else addVertex s1 (getMousePosition g ev)

/-- The data `renderNewPoint` hands to the render sink: the stored coordinate
list followed by the preview point (`[this.coords, x, y].join(',')`). -/
def RenderCall : Type := List Point × Point

/-- `drawMaps.prototype.onMove`: return untouched unless
`isDrawing && coords.length > 0`; otherwise map the position and emit a
`renderNewPoint` call. The widget state is returned alongside the optional
render-sink call. -/
def onMove (g : Geometry) (ev : MouseEvent) (s : State) : State × Option RenderCall :=
  if !s.isDrawing || s.coords.length == 0 then (s, none)
  else
    let p := getMousePosition g ev
    (s, some (s.coords, p))

/-! ## The option merger and the construction loop -/

/-- A JavaScript value as far as `extend` observes one: `typeof` and
assignment. Objects carry their own enumerable properties in insertion
order; `null` and object values both have `typeof === 'object'`. -/
inductive JSVal where
  | vBool : Bool → JSVal
  | vNum : ℚ → JSVal
  | vStr : String → JSVal
  | vNull : JSVal
  | vUndefined : JSVal
  | vObj : List (String × JSVal) → JSVal

/-- `typeof v === 'object'` (true for plain objects, arrays and `null`). -/
def JSVal.typeofIsObject : JSVal → Bool
  | vNull => true
  | vObj _ => true
  | _ => false

/-- A thrown JS exception. -/
inductive JSError where
  | refError : String → JSError
  | typeError : String → JSError
deriving DecidableEq

/-- `out[key] = v` on an object modelled as an insertion-ordered property
list. -/
def setKey (out : List (String × JSVal)) (k : String) (v : JSVal) :
    List (String × JSVal) :=
  if out.any (fun p => p.1 = k) then
    out.map (fun p => if p.1 = k then (k, v) else p)
  else out ++ [(k, v)]

/-- The inner loop of `drawMaps.prototype.extend` over one source object:
for each own property, object-typed values reach
`deepExtend(out[key], obj[key])`, and `deepExtend` is an undefined
identifier, so evaluating the call throws a `ReferenceError`; other values
are assigned. -/
def extendOne : List (String × JSVal) → List (String × JSVal) →
    Except JSError (List (String × JSVal))
  | out, [] => .ok out
  | out, (k, v) :: rest =>
    if v.typeofIsObject then .error (.refError "deepExtend is not defined")
    else extendOne (setKey out k v) rest

/-- `drawMaps.prototype.extend(out, ...sources)`: falsy sources are skipped
(`if (!obj) continue`), the rest merged left to right; a thrown
`ReferenceError` propagates. -/
def extend : List (String × JSVal) → List (Option (List (String × JSVal))) →
    Except JSError (List (String × JSVal))
  | out, [] => .ok out
  | out, none :: rest => extend out rest
  | out, some obj :: rest =>
    match extendOne out obj with
    | .ok out2 => extend out2 rest
    | .error e => .error e

/-- `drawMaps.prototype.defaults`. -/
def defaults : List (String × JSVal) :=
  [("wrapImages", .vBool true),
   ("regretKey", .vStr "metaKey"),
   ("closeKey", .vStr "shiftKey"),
   ("resetKey", .vStr "altKey"),
   ("fillColor", .vStr "rgba(255, 0, 0, 0.3)"),
   ("strokeColor", .vStr "rgba(255, 0, 0, 0.5)"),
   ("strokeWidth", .vNum 1)]

/-- The constructor's option resolution:
`this.options = this.extend({}, this.defaults, options)`. -/
def mergeOptions (options : Option (List (String × JSVal))) :
    Except JSError (List (String × JSVal)) :=
  extend [] [some defaults, options]

/-- What `initialize` needs of a target element: whether `element.parentNode`
exists, so that `injectWrapper` (`parentNode.insertBefore` / `removeChild`)
and `injectSvg` (`parentNode.appendChild`) can run. A parentless element
makes those calls throw a `TypeError`. -/
structure Elem where
  hasParent : Bool
deriving DecidableEq

/-- A successfully constructed widget: its resolved options and its initial
session state. -/
structure Widget where
  options : List (String × JSVal)
  state : State

/-- The DOM scaffolding of `initialize` (`injectWrapper` and `injectSvg`),
abstracted to its one failure mode: both dereference
`this.element.parentNode`, so they throw iff the element has no parent. -/
def domInit (e : Elem) : Except JSError Unit :=
  if e.hasParent then .ok () else .error (.typeError "Cannot read property of null")

/-- The `drawMaps` constructor: merge options (which can throw, see
`extendOne`), then `initialize` (which can throw on a parentless element). -/
def construct (options : Option (List (String × JSVal))) (e : Elem) :
    Except JSError Widget :=
  match mergeOptions options with
  | .error err => .error err
  | .ok merged =>
    match domInit e with
    | .error err => .error err
    | .ok _ => .ok { options := merged, state := initState }

/-- Whether an `Except` computation succeeded. -/
def exOk {ε : Type u} {α : Type v} : Except ε α → Bool
  | .ok _ => true
  | .error _ => false

/-- The exported function's loop, `for (var i = elements.length - 1; i >= 0;
i--) new drawMaps(elements[i], options)`, run with `n` iterations left: the
next index processed is `n - 1`. Returns the indices that got widgets (in
processing order) and the exception, if one aborted the loop. -/
def loopFrom (options : Option (List (String × JSVal))) (elems : List Elem) :
    ℕ → List ℕ × Option JSError
  | 0 => ([], none)
  | n + 1 =>
    match elems.get? n with
    | none => ([], none)
    | some e =>
      match construct options e with
      | .ok _ =>
        let r := loopFrom options elems n
        (n :: r.1, r.2)
      | .error err => ([], some err)

/-- The exposed function: instantiate one widget per matched element, from
the last index down to index 0. -/
def createAll (options : Option (List (String × JSVal))) (elems : List Elem) :
    List ℕ × Option JSError :=
  loopFrom options elems elems.length

/-! ## Concrete inputs used by scenario theorems and witnesses -/

/-- Element whose document offset is `(10, 10)` with no page scroll and no
root-element border. -/
def gScenario : Geometry :=
  { rectTop := 10, rectLeft := 10, pageXOffset := 0, pageYOffset := 0,
    clientTop := 0, clientLeft := 0 }

/-- Plain click at page `(110, 60)`. -/
def evPlain1 : MouseEvent :=
  { pageX := 110, pageY := 60, metaKey := false, shiftKey := false,
    altKey := false, ctrlKey := false }

/-- Click at page `(130, 80)` with the undo modifier (meta) held. -/
def evUndo2 : MouseEvent :=
  { pageX := 130, pageY := 80, metaKey := true, shiftKey := false,
    altKey := false, ctrlKey := false }

/-- Plain click at page `(130, 80)`. -/
def evPlain3 : MouseEvent :=
  { pageX := 130, pageY := 80, metaKey := false, shiftKey := false,
    altKey := false, ctrlKey := false }

/-- State after the first scenario click. -/
def scen1 : State := onClick defaultKeys gScenario evPlain1 initState

/-- State after the second (undo-modifier) scenario click. -/
def scen2 : State := onClick defaultKeys gScenario evUndo2 scen1

/-- State after the third (plain) scenario click. -/
def scen3 : State := onClick defaultKeys gScenario evPlain3 scen2

/-- Click with every modifier key held at once. -/
def evAllMods : MouseEvent :=
  { pageX := 110, pageY := 60, metaKey := true, shiftKey := true,
    altKey := true, ctrlKey := true }

/-- An element with a parent: construction succeeds. -/
def elemOk : Elem := { hasParent := true }

/-- A parentless element: `initialize` throws. -/
def elemBad : Elem := { hasParent := false }

/-! ## Helper lemmas -/

theorem ensurePolygon_coords (s : State) : (ensurePolygon s).coords = s.coords := by
  unfold ensurePolygon injectPolygon
  split <;> rfl

theorem regretPoint_length_le (s : State) :
    (regretPoint s).coords.length ≤ s.coords.length := by
  unfold regretPoint
  split
  · simp only [List.length_dropLast]
    omega
  · exact le_refl _

theorem scen1_eq : scen1 =
    { isDrawing := true, coords := [⟨100, 50⟩], polygonAttached := true,
      svgShapeCount := 1 } := by
  simp only [scen1, onClick, ensurePolygon, injectPolygon, initState, addVertex,
    MouseEvent.getModifier, defaultKeys, getMousePosition, getElementOffset, gScenario,
    evPlain1, jsRound]
  norm_num

theorem scen2_eq : scen2 =
    { isDrawing := true, coords := [], polygonAttached := true,
      svgShapeCount := 1 } := by
  rw [scen2, scen1_eq]
  simp only [onClick, ensurePolygon, injectPolygon, regretPoint,
    MouseEvent.getModifier, defaultKeys, evUndo2]
  norm_num

theorem scen3_eq : scen3 =
    { isDrawing := true, coords := [⟨120, 70⟩], polygonAttached := true,
      svgShapeCount := 1 } := by
  rw [scen3, scen2_eq]
  simp only [onClick, ensurePolygon, injectPolygon, addVertex,
    MouseEvent.getModifier, defaultKeys, getMousePosition, getElementOffset, gScenario,
    evPlain3, jsRound]
  norm_num

theorem exOk_true_iff {ε : Type u} {α : Type v} (c : Except ε α) :
    exOk c = true ↔ ∃ a, c = .ok a := by
  cases c <;> simp [exOk]

theorem exOk_false_iff {ε : Type u} {α : Type v} (c : Except ε α) :
    exOk c = false ↔ ∃ e, c = .error e := by
  cases c <;> simp [exOk]

theorem extendOne_error_of_object (l : List (String × JSVal)) :
    ∀ out, (∃ kv ∈ l, kv.2.typeofIsObject = true) →
      extendOne out l = .error (.refError "deepExtend is not defined") := by
  induction l with
  | nil =>
    intro out h
    simp at h
  | cons kv rest ih =>
    intro out h
    obtain ⟨k, v⟩ := kv
    by_cases hv : v.typeofIsObject = true
    · simp [extendOne, hv]
    · have hrest : ∃ kv2 ∈ rest, kv2.2.typeofIsObject = true := by
        rcases h with ⟨kv2, hmem, hobj⟩
        rcases List.mem_cons.1 hmem with h1 | h2
        · subst h1
          exact absurd hobj hv
        · exact ⟨kv2, h2, hobj⟩
      rw [Bool.not_eq_true] at hv
      simp only [extendOne, hv, Bool.false_eq_true, if_false]
      exact ih _ hrest

theorem extendOne_ok_of_no_object (l : List (String × JSVal)) :
    ∀ out, (∀ kv ∈ l, kv.2.typeofIsObject = false) →
      exOk (extendOne out l) = true := by
  induction l with
  | nil =>
    intro out _
    rfl
  | cons kv rest ih =>
    intro out h
    obtain ⟨k, v⟩ := kv
    have hv : v.typeofIsObject = false := h (k, v) (List.mem_cons_self _ _)
    simp only [extendOne, hv, Bool.false_eq_true, if_false]
    exact ih _ fun kv2 hm => h kv2 (List.mem_cons_of_mem _ hm)

theorem extendOne_defaults : extendOne [] defaults = .ok defaults := rfl

theorem loopFrom_mem (options : Option (List (String × JSVal))) (elems : List Elem)
    (i : ℕ)
    (hfail : ∀ e, elems.get? i = some e → exOk (construct options e) = false)
    (hok : ∀ j e, i < j → elems.get? j = some e → exOk (construct options e) = true) :
    ∀ n, i < n → n ≤ elems.length →
      ∀ j, (j ∈ (loopFrom options elems n).1 ↔ i < j ∧ j < n) := by
  intro n
  induction n with
  | zero =>
    intro h
    omega
  | succ n ih =>
    intro hin hlen j
    have hn : n < elems.length := by omega
    obtain ⟨e, he⟩ : ∃ e, elems.get? n = some e := by
      rw [List.get?_eq_get hn]
      exact ⟨_, rfl⟩
    by_cases hni : i = n
    · subst hni
      obtain ⟨err, herr⟩ := (exOk_false_iff _).1 (hfail e he)
      simp only [loopFrom, he, herr, List.not_mem_nil, false_iff]
      omega
    · have hlt : i < n := by omega
      obtain ⟨w, hw⟩ := (exOk_true_iff _).1 (hok n e hlt he)
      have ihn := ih hlt (by omega) j
      simp only [loopFrom, he, hw, List.mem_cons, ihn]
      omega

/-! ## Claim theorems -/

/-- C1: every click performs exactly one action, selected by the fixed
priority regret-modifier, then close-modifier, then reset-modifier, then
plain vertex add; on any modifier action no vertex is added. -/
theorem onClick_modifier_priority (keys : KeyOptions) (g : Geometry)
    (ev : MouseEvent) (s : State) :
    (ev.getModifier keys.regretKey = true →
      onClick keys g ev s = regretPoint (ensurePolygon s)) ∧
    (ev.getModifier keys.regretKey = false → ev.getModifier keys.closeKey = true →
      onClick keys g ev s = closeMap (ensurePolygon s)) ∧
    (ev.getModifier keys.regretKey = false → ev.getModifier keys.closeKey = false →
      ev.getModifier keys.resetKey = true →
      onClick keys g ev s = resetMaps (ensurePolygon s)) ∧
    (ev.getModifier keys.regretKey = false → ev.getModifier keys.closeKey = false →
      ev.getModifier keys.resetKey = false →
      onClick keys g ev s = addVertex (ensurePolygon s) (getMousePosition g ev)) ∧
    ((ev.getModifier keys.regretKey = true ∨ ev.getModifier keys.closeKey = true ∨
      ev.getModifier keys.resetKey = true) →
      (onClick keys g ev s).coords.length ≤ s.coords.length) := by
  refine ⟨?_, ?_, ?_, ?_, ?_⟩
  · intro hr
    simp [onClick, hr]
  · intro hr hc
    simp [onClick, hr, hc]
  · intro hr hc ht
    simp [onClick, hr, hc, ht]
  · intro hr hc ht
    simp [onClick, hr, hc, ht]
  · intro hmod
    cases hr : ev.getModifier keys.regretKey
    · cases hc : ev.getModifier keys.closeKey
      · cases ht : ev.getModifier keys.resetKey
        · rw [hr, hc, ht] at hmod
          simp at hmod
        · simp [onClick, hr, hc, ht, resetMaps]
      · simp [onClick, hr, hc, closeMap]
    · have hle := regretPoint_length_le (ensurePolygon s)
      rw [ensurePolygon_coords] at hle
      simpa [onClick, hr] using hle

/-- C1 witness: with every modifier held at once, only `regretPoint` runs. -/
theorem onClick_modifier_priority_witness :
    onClick defaultKeys gScenario evAllMods initState =
      regretPoint (ensurePolygon initState) :=
  (onClick_modifier_priority defaultKeys gScenario evAllMods initState).1 (by decide)

/-- C2: after `closeMap` or `resetMaps` the vertex list is empty and the
drawing flag is false, whatever the prior state. -/
theorem closeMap_resetMaps_clear_session (s : State) :
    (closeMap s).coords = [] ∧ (closeMap s).isDrawing = false ∧
    (resetMaps s).coords = [] ∧ (resetMaps s).isDrawing = false :=
  ⟨rfl, rfl, rfl, rfl⟩

/-- C3: adding a vertex and immediately regretting it restores the vertex
list exactly. -/
theorem addVertex_undo_roundtrip (s : State) (p : Point) :
    (regretPoint (addVertex s p)).coords = s.coords := by
  simp [regretPoint, addVertex, List.dropLast_concat]

/-- C4: `regretPoint` on an empty vertex list is a no-op, and `regretPoint`
never changes the drawing flag in any state. -/
theorem regretPoint_empty_noop (s : State) :
    (s.coords = [] → regretPoint s = s) ∧
    (regretPoint s).isDrawing = s.isDrawing := by
  constructor
  · intro h
    simp [regretPoint, h]
  · unfold regretPoint
    split <;> rfl

/-- C4 witness: `regretPoint` on the empty initial state. -/
theorem regretPoint_empty_noop_witness :
    regretPoint initState = initState ∧
    (regretPoint initState).isDrawing = initState.isDrawing :=
  ⟨(regretPoint_empty_noop initState).1 rfl, (regretPoint_empty_noop initState).2⟩

/-- C5 counterexample: in the spec's scenario the undo-modifier click pops
the only vertex, so afterwards the list is not `[(100,50)]`, and the final
list is not `[(100,50),(120,70)]`. -/
theorem scenario_undo_click_cex :
    scen1.coords = [⟨100, 50⟩] ∧ scen2.coords ≠ [⟨100, 50⟩] ∧
    scen3.coords ≠ [⟨100, 50⟩, ⟨120, 70⟩] := by
  rw [scen1_eq, scen2_eq, scen3_eq]
  exact ⟨rfl, by decide, by decide⟩

/-- C5 amended: the plain click at (110,60) yields vertex (100,50); the
undo-modifier click then empties the vertex list; the final plain click at
(130,80) adds (120,70), giving `[(120,70)]`. -/
theorem scenario_undo_click_amended :
    scen1.coords = [⟨100, 50⟩] ∧ scen2.coords = [] ∧
    scen3.coords = [⟨120, 70⟩] := by
  rw [scen1_eq, scen2_eq, scen3_eq]
  exact ⟨rfl, rfl, rfl⟩

/-- C6: the code's coordinate mapper returns exactly the point the spec
formula describes. -/
theorem getMousePosition_eq_coordinateMapperSpec (g : Geometry) (ev : MouseEvent) :
    getMousePosition g ev = coordinateMapperSpec g ev := rfl

/-- C7: the coordinate mapper is invariant under page scroll: scrolling by
`(dx, dy)` while the element keeps its document position maps the same page
position to the identical point. -/
theorem getMousePosition_scroll_invariant (g : Geometry) (dx dy : ℚ)
    (ev : MouseEvent) :
    getMousePosition (scrollBy g dx dy) ev = getMousePosition g ev := by
  simp only [getMousePosition, getElementOffset, scrollBy, jsRound, Point.mk.injEq]
  constructor <;> · congr 1; ring

/-- C8: `onMove` never modifies the session (vertex list and drawing flag
unchanged), and when it emits a render call the stored-coordinate part of
that call is exactly the untouched vertex list, the preview point riding
alongside only. -/
theorem onMove_preserves_session (g : Geometry) (ev : MouseEvent) (s : State) :
    (onMove g ev s).1 = s ∧
    (onMove g ev s).2.elim True (fun c => c.1 = s.coords) := by
  unfold onMove
  split
  · exact ⟨rfl, trivial⟩
  · exact ⟨rfl, rfl⟩

/-- C9 counterexample: with matched elements `[ok, bad]` the loop, which
runs from the last index down, hits the failing element first, and the
exception aborts the loop: the first element gets no widget even though its
own construction would succeed. -/
theorem createAll_abort_cex :
    exOk (construct none elemOk) = true ∧
    exOk (construct none elemBad) = false ∧
    (createAll none [elemOk, elemBad]).1 = [] := by
  refine ⟨rfl, rfl, rfl⟩

/-- C9 amended: when the element at index `i` fails to initialize and every
element after it succeeds, the exception aborts the construction loop:
exactly the elements with index above `i` (processed earlier, the loop
running from the last index to the first) get widgets; the failing element
and every element below it get none. -/
theorem createAll_abort (options : Option (List (String × JSVal)))
    (elems : List Elem) (i : ℕ) (hi : i < elems.length)
    (hfail : ∀ e, elems.get? i = some e → exOk (construct options e) = false)
    (hok : ∀ j e, i < j → elems.get? j = some e → exOk (construct options e) = true) :
    ∀ j, j ∈ (createAll options elems).1 ↔ i < j ∧ j < elems.length := by
  intro j
  exact loopFrom_mem options elems i hfail hok elems.length hi (le_refl _) j

/-- C9 witness: elements `[bad, ok]`, failing index 0: index 1 gets a
widget, index 0 does not. -/
theorem createAll_abort_witness :
    (0 ∈ (createAll none [elemBad, elemOk]).1 ↔ 0 < 0 ∧ 0 < 2) ∧
    (1 ∈ (createAll none [elemBad, elemOk]).1 ↔ 0 < 1 ∧ 1 < 2) := by
  have h := createAll_abort none [elemBad, elemOk] 0 (by decide)
    (by
      intro e he
      have he2 : e = elemBad := by simpa using he.symm
      subst he2
      rfl)
    (by
      intro j e hj he
      match j, hj with
      | 1, _ =>
        have he2 : e = elemOk := by simpa using he.symm
        subst he2
        rfl
      | j + 2, _ =>
        exact Option.noConfusion he)
  exact ⟨h 0, h 1⟩

/-- C10: constructing a widget with any options object that has an
object-typed own property (nested object, array, or null) throws the
`ReferenceError` from the undefined `deepExtend`; options with only
non-object values, or no options at all, never reach that branch and
construction succeeds on a measurable element. -/
theorem construct_object_valued_option (opts : List (String × JSVal)) (e : Elem) :
    ((∃ kv ∈ opts, kv.2.typeofIsObject = true) →
      construct (some opts) e = .error (.refError "deepExtend is not defined")) ∧
    ((∀ kv ∈ opts, kv.2.typeofIsObject = false) → e.hasParent = true →
      exOk (construct (some opts) e) = true) ∧
    (e.hasParent = true → exOk (construct none e) = true) := by
  refine ⟨?_, ?_, ?_⟩
  · intro h
    have herr := extendOne_error_of_object opts defaults h
    unfold construct mergeOptions
    simp only [extend, extendOne_defaults, herr]
  · intro h hp
    obtain ⟨o, ho⟩ := (exOk_true_iff _).1 (extendOne_ok_of_no_object opts defaults h)
    unfold construct mergeOptions domInit
    simp only [extend, extendOne_defaults, ho, hp, if_true]
    rfl
  · intro hp
    unfold construct mergeOptions domInit
    simp only [extend, extendOne_defaults, hp, if_true]
    rfl

/-- C10 witness: an options object carrying a nested (object-typed) `style`
property makes construction throw the `deepExtend` `ReferenceError`; options
with a plain numeric property, or no options, construct fine. -/
theorem construct_object_valued_option_witness :
    construct (some [("style", JSVal.vObj [])]) elemOk =
      .error (.refError "deepExtend is not defined") ∧
    exOk (construct (some [("strokeWidth", JSVal.vNum 2)]) elemOk) = true ∧
    exOk (construct none elemOk) = true := by
  refine ⟨?_, ?_, ?_⟩
  · exact (construct_object_valued_option _ elemOk).1
      ⟨("style", JSVal.vObj []), by simp, rfl⟩
  · refine (construct_object_valued_option _ elemOk).2.1 ?_ rfl
    intro kv hkv
    have hk : kv = ("strokeWidth", JSVal.vNum 2) := by simpa using hkv
    subst hk
    rfl
  · exact (construct_object_valued_option [] elemOk).2.2 rfl

end DrawMaps
